import Mathlib

/-!
Verification of the listener object of `dlls/webservices/listener.c` (a
server-side network channel listener).  The source file is embedded
shallowly: machine integers become `Nat`/`Int`, the external collaborators
(URL decoding, heap allocation, the winsock calls) become an explicit
environment record, and the fallible C paths become `Except`/`Option`
results.  The generic property-table helpers (`prop_init`, `prop_set`,
`prop_get`) live in a shared source file that is not part of this
repository snapshot; they are modelled from the specification, as marked
on their doc comments.
-/

namespace Webservices

/-- HRESULT values used by the listener code.  `fromWin32` stands for
`HRESULT_FROM_WIN32(WSAGetLastError())`: an error translated from the
network subsystem's last-error code. -/
inductive HRESULT where
  | S_OK
  | E_INVALIDARG
  | E_NOTIMPL
  | E_OUTOFMEMORY
  | WS_E_INVALID_OPERATION
  | WS_E_ADDRESS_NOT_AVAILABLE
  | fromWin32 (code : Nat)
  deriving DecidableEq, Repr

/-- `WS_LISTENER_STATE`: lifecycle states of a listener. -/
inductive WS_LISTENER_STATE where
  | CREATED
  | OPENING
  | OPEN
  | FAULTED
  | CLOSING
  | CLOSED
  deriving DecidableEq, Repr

/-- `WS_CHANNEL_TYPE`: the kind of channel a listener accepts. -/
inductive WS_CHANNEL_TYPE where
  | INPUT
  | INPUT_SESSION
  | DUPLEX
  | DUPLEX_SESSION
  | REQUEST
  | REPLY
  deriving DecidableEq, Repr

/-- `WS_CHANNEL_BINDING`: the transport binding of a channel. -/
inductive WS_CHANNEL_BINDING where
  | HTTP
  | TCP
  | UDP
  | CUSTOM
  | NAMEDPIPE
  deriving DecidableEq, Repr

/-- `struct prop_desc`: per-property schema entry, `size == 0` meaning a
variable-length field. -/
structure prop_desc where
  size : Nat
  readonly : Bool
  deriving DecidableEq, Repr

/-- The `listener_props` schema table of `listener.c`, in source order
(listen backlog, IP version, state, async callback model, channel type,
channel binding, connect timeout, is-multicast, multicast interfaces,
multicast loopback, close timeout, to-header matching options, transport
URL matching options, custom listener callbacks, custom listener
parameters, custom listener instance, disallowed user agent), with
64-bit-target byte sizes. -/
def listener_props : List prop_desc :=
  [ ⟨4, false⟩,
    ⟨4, false⟩,
    ⟨4, true⟩,
    ⟨4, false⟩,
    ⟨4, true⟩,
    ⟨4, true⟩,
    ⟨4, false⟩,
    ⟨4, false⟩,
    ⟨0, false⟩,
    ⟨4, false⟩,
    ⟨4, false⟩,
    ⟨4, false⟩,
    ⟨4, false⟩,
    ⟨16, false⟩,
    ⟨0, false⟩,
    ⟨8, true⟩,
    ⟨16, false⟩ ]

def WS_LISTENER_PROPERTY_LISTEN_BACKLOG : Nat := 0

def WS_LISTENER_PROPERTY_IP_VERSION : Nat := 1

def WS_LISTENER_PROPERTY_STATE : Nat := 2

def WS_LISTENER_PROPERTY_ASYNC_CALLBACK_MODEL : Nat := 3

def WS_LISTENER_PROPERTY_CHANNEL_TYPE : Nat := 4

def WS_LISTENER_PROPERTY_CHANNEL_BINDING : Nat := 5

/-- Modelled from the spec: `prop_init` from the shared property-table
code (not under this snapshot's sources) lays out one slot per schema
entry and zero-fills the fixed-size slots; variable-size slots start
empty. -/
def prop_init (descs : List prop_desc) : List (List Nat) :=
  descs.map fun d => List.replicate d.size 0

/-- Modelled from the spec: `prop_set` from the shared property-table
code (not under this snapshot's sources) fails with `InvalidArgument` if
the id is out of range, the field is read-only, or the supplied size does
not match the declared fixed size (when non-zero); for variable-size
fields it replaces the stored byte span by a copy of the supplied bytes.
On failure the stored values are unchanged. -/
def prop_set (descs : List prop_desc) (props : List (List Nat)) (id : Nat)
    (value : List Nat) : HRESULT × List (List Nat) :=
  match descs[id]? with
  | none => (.E_INVALIDARG, props)
  | some d =>
    if d.readonly then (.E_INVALIDARG, props)
    else if d.size ≠ 0 ∧ value.length ≠ d.size then (.E_INVALIDARG, props)
    else (.S_OK, props.set id value)

/-- Modelled from the spec: `prop_get` from the shared property-table
code (not under this snapshot's sources) fails with `InvalidArgument` if
the id is out of range or the buffer size does not equal the field's
actual stored size; otherwise it copies the stored bytes out. -/
def prop_get (props : List (List Nat)) (id : Nat) (size : Nat) :
    HRESULT × Option (List Nat) :=
  match props[id]? with
  | none => (.E_INVALIDARG, none)
  | some v => if size ≠ v.length then (.E_INVALIDARG, none) else (.S_OK, some v)

/-- `struct listener`: the lock is not represented (all calls are modelled
as atomic whole operations, which is what holding the lock for the whole
call achieves); `socket = -1` is the absent sentinel. -/
structure listener where
  magic : Nat
  type : WS_CHANNEL_TYPE
  binding : WS_CHANNEL_BINDING
  state : WS_LISTENER_STATE
  socket : Int
  prop : List (List Nat)
  deriving DecidableEq, Repr

/-- `LISTENER_MAGIC`: the identity-guard tag of a live listener. -/
def LISTENER_MAGIC : Nat := (76 <<< 24) ||| (73 <<< 16) ||| (83 <<< 8) ||| 84

/-- `alloc_listener`: zero-initialized allocation with the magic tag set
and the property table initialized.  The `type`, `binding` and `socket`
fields hold the zero-fill placeholders here; `create_listener` overwrites
them before the object escapes. -/
def alloc_listener : listener :=
  { magic := LISTENER_MAGIC
    type := .INPUT
    binding := .HTTP
    state := .CREATED
    socket := 0
    prop := prop_init listener_props }

/-- `reset_listener`: closes any socket, resets it to the absent sentinel
and returns the state to `CREATED`. -/
def reset_listener (l : listener) : listener :=
  { l with socket := -1, state := .CREATED }

/-- `close_listener`: reset, then mark the listener `CLOSED`. -/
def close_listener (l : listener) : listener :=
  { reset_listener l with state := .CLOSED }

/-- `WsFreeListener`: on a live handle, clears the identity tag and
performs the reset-and-release of `free_listener`; on a handle whose tag
is already invalid it returns without touching anything.  The heap
release itself is outside the model: the returned value is the last
observable content of the handle. -/
def WsFreeListener (l : listener) : listener :=
  if l.magic ≠ LISTENER_MAGIC then l
  else { reset_listener l with magic := 0 }

/-- `WS_LISTENER_PROPERTY`: one caller-supplied property override; the
C `valueSize` is `value.length`. -/
structure WS_LISTENER_PROPERTY where
  id : Nat
  value : List Nat
  deriving DecidableEq, Repr

/-- The property-override loop of `create_listener`: apply each override
in order through `prop_set`, stopping at the first failure with that
failure's error. -/
def apply_props (s : List (List Nat)) :
    List WS_LISTENER_PROPERTY → Except HRESULT (List (List Nat))
  | [] => .ok s
  | p :: rest =>
    let r := prop_set listener_props s p.id p.value
    if r.1 = .S_OK then apply_props r.2 rest else .error r.1

/-- `create_listener`: allocate (the `allocOk` flag is the heap
allocation's success), apply the overrides in order, then set the
constructor-only fields and the absent socket sentinel.  Any override
failure frees the partial object and returns that failure. -/
def create_listener (allocOk : Bool) (t : WS_CHANNEL_TYPE)
    (b : WS_CHANNEL_BINDING) (properties : List WS_LISTENER_PROPERTY) :
    Except HRESULT listener :=
  if allocOk = false then .error .E_OUTOFMEMORY
  else
    match apply_props (prop_init listener_props) properties with
    | .error hr => .error hr
    | .ok ps =>
      .ok { alloc_listener with type := t, binding := b, socket := -1, prop := ps }

/-- `WsCreateListener`: argument validation, the supported-combination
checks, then `create_listener`.  `handleNull` models a null `handle`
output argument. -/
def WsCreateListener (allocOk : Bool) (t : WS_CHANNEL_TYPE)
    (b : WS_CHANNEL_BINDING) (properties : List WS_LISTENER_PROPERTY)
    (handleNull : Bool) : HRESULT × Option listener :=
  if handleNull then (.E_INVALIDARG, none)
  else if t ≠ .DUPLEX_SESSION then (.E_NOTIMPL, none)
  else if b ≠ .TCP then (.E_NOTIMPL, none)
  else
    match create_listener allocOk t b properties with
    | .error hr => (hr, none)
    | .ok l => (.S_OK, some l)

/-- `struct sockaddr`: address family plus opaque bytes. -/
structure sockaddr where
  sa_family : Nat
  sa_data : List Nat
  deriving DecidableEq, Repr

/-- One `ADDRINFOW` entry of a `GetAddrInfoW` result list. -/
structure ADDRINFOW where
  ai_family : Nat
  ai_addr : sockaddr
  deriving DecidableEq, Repr

def AF_INET : Nat := 2

def AF_INET6 : Nat := 23

/-- The decoded `WS_NETTCP_URL` fields the listener uses: the host
characters (UTF-16 code units) and the port. -/
structure WS_NETTCP_URL where
  host : List Nat
  port : Nat
  deriving DecidableEq, Repr

/-- The environment of external calls made during `WsOpenListener`:
results of `WsCreateHeap`, `WsDecodeUrl`, the host-copy allocation,
`GetAddrInfoW` (error code or entry list), `socket` (error code or
descriptor), `bind` and `listen` (`some code` meaning failure with that
last-error code). -/
structure NetEnv where
  createHeap : HRESULT
  decodeUrl : HRESULT × WS_NETTCP_URL
  hostAlloc : Bool
  getAddrInfo : Option (List Nat) → Nat → Except Nat (List ADDRINFOW)
  socketCall : Nat → Except Nat Nat
  bindCall : Nat → Option Nat
  listenCall : Nat → Nat → Option Nat

/-- `parse_url`: create a heap, decode the URL, map a one-character
`+`/`*` host (code units 43 and 42) to the wildcard sentinel `none`, and
otherwise copy the host string. -/
def parse_url (env : NetEnv) : Except HRESULT (Option (List Nat) × Nat) :=
  if env.createHeap ≠ .S_OK then .error env.createHeap
  else if env.decodeUrl.1 ≠ .S_OK then .error env.decodeUrl.1
  else if env.decodeUrl.2.host.length = 1 ∧
      (env.decodeUrl.2.host.headD 0 = 43 ∨ env.decodeUrl.2.host.headD 0 = 42) then
    .ok (none, env.decodeUrl.2.port)
  else if env.hostAlloc = false then .error .E_OUTOFMEMORY
  else .ok (some env.decodeUrl.2.host, env.decodeUrl.2.port)

/-- The scanning loop of `resolve_hostname`: walk the `ai_next` chain and
stop at the first entry whose family is `AF_INET` or `AF_INET6`. -/
def find_inet : List ADDRINFOW → Option ADDRINFOW
  | [] => none
  | info :: rest =>
    if info.ai_family = AF_INET ∨ info.ai_family = AF_INET6 then some info
    else find_inet rest

/-- `resolve_hostname`: forward lookup through `GetAddrInfoW`, then the
first-IPv4-or-IPv6 scan; a failed lookup is translated from the
subsystem's last-error code, and an empty scan yields
`WS_E_ADDRESS_NOT_AVAILABLE`. -/
def resolve_hostname (env : NetEnv) (host : Option (List Nat)) (port : Nat) :
    HRESULT × Option sockaddr :=
  match env.getAddrInfo host port with
  | .error err => (.fromWin32 err, none)
  | .ok res =>
    match find_inet res with
    | some info => (.S_OK, some info.ai_addr)
    | none => (.WS_E_ADDRESS_NOT_AVAILABLE, none)

/-- The externally visible actions `open_listener` performs, in the order
it performs them; `socketStep` records the address family passed to
`socket` and `listenStep` the backlog passed to `listen`. -/
inductive OpenStep where
  | decodeUrlStep
  | winsockInitStep
  | resolveStep
  | socketStep (family : Nat)
  | bindStep
  | listenStep (backlog : Nat)
  deriving DecidableEq, Repr

/-- `open_listener`: parse the URL, run `winsock_init`, resolve the host,
create a socket of the resolved family, bind, and listen with backlog 0;
on a socket/bind/listen failure the socket is closed and reset to the
absent sentinel before the translated error is returned.  The third
component is the trace of performed steps, in order. -/
def open_listener (env : NetEnv) (l : listener) :
    HRESULT × listener × List OpenStep :=
  match parse_url env with
  | .error hr => (hr, l, [.decodeUrlStep])
  | .ok (host, port) =>
    match resolve_hostname env host port with
    | (hr, none) => (hr, l, [.decodeUrlStep, .winsockInitStep, .resolveStep])
    | (_, some addr) =>
      match env.socketCall addr.sa_family with
      | .error err =>
        (.fromWin32 err, { l with socket := -1 },
         [.decodeUrlStep, .winsockInitStep, .resolveStep, .socketStep addr.sa_family])
      | .ok fd =>
        match env.bindCall fd with
        | some err =>
          (.fromWin32 err, { l with socket := -1 },
           [.decodeUrlStep, .winsockInitStep, .resolveStep, .socketStep addr.sa_family,
            .bindStep])
        | none =>
          match env.listenCall fd 0 with
          | some err =>
            (.fromWin32 err, { l with socket := -1 },
             [.decodeUrlStep, .winsockInitStep, .resolveStep, .socketStep addr.sa_family,
              .bindStep, .listenStep 0])
          | none =>
            (.S_OK, { l with socket := (fd : Int), state := .OPEN },
             [.decodeUrlStep, .winsockInitStep, .resolveStep, .socketStep addr.sa_family,
              .bindStep, .listenStep 0])

/-- `WsOpenListener`: null checks, the identity-guard check, the
`CREATED`-state check, then `open_listener`, all under the listener's
lock. -/
def WsOpenListener (env : NetEnv) (l : listener) (urlNull : Bool) :
    HRESULT × listener :=
  if urlNull then (.E_INVALIDARG, l)
  else if l.magic ≠ LISTENER_MAGIC then (.E_INVALIDARG, l)
  else if l.state ≠ .CREATED then (.WS_E_INVALID_OPERATION, l)
  else
    let r := open_listener env l
    (r.1, r.2.1)

/-- `WsCloseListener`: the identity-guard check, then the unconditional
`close_listener`, always returning `S_OK` on a live handle. -/
def WsCloseListener (l : listener) : HRESULT × listener :=
  if l.magic ≠ LISTENER_MAGIC then (.E_INVALIDARG, l)
  else (.S_OK, close_listener l)

/-- What `WsGetListenerProperty` writes into the caller's buffer when it
succeeds. -/
inductive PropOut where
  | stateOut (s : WS_LISTENER_STATE)
  | typeOut (t : WS_CHANNEL_TYPE)
  | bindingOut (b : WS_CHANNEL_BINDING)
  | bytesOut (v : List Nat)
  deriving DecidableEq, Repr

/-- `WsGetListenerProperty`: the identity-guard check, then the three
dedicated-field identifiers with their own null-buffer and exact-size
checks, and the generic `prop_get` for everything else.  The second
component is `none` exactly when the caller's buffer was not written. -/
def WsGetListenerProperty (l : listener) (id : Nat) (bufPresent : Bool)
    (size : Nat) : HRESULT × Option PropOut :=
  if l.magic ≠ LISTENER_MAGIC then (.E_INVALIDARG, none)
  else if id = WS_LISTENER_PROPERTY_STATE then
    if bufPresent = false ∨ size ≠ 4 then (.E_INVALIDARG, none)
    else (.S_OK, some (.stateOut l.state))
  else if id = WS_LISTENER_PROPERTY_CHANNEL_TYPE then
    if bufPresent = false ∨ size ≠ 4 then (.E_INVALIDARG, none)
    else (.S_OK, some (.typeOut l.type))
  else if id = WS_LISTENER_PROPERTY_CHANNEL_BINDING then
    if bufPresent = false ∨ size ≠ 4 then (.E_INVALIDARG, none)
    else (.S_OK, some (.bindingOut l.binding))
  else
    match prop_get l.prop id size with
    | (.S_OK, some v) => (.S_OK, some (.bytesOut v))
    | (hr, _) => (hr, none)

/-- `WsSetListenerProperty`: the identity-guard check, then delegation of
every identifier to the generic `prop_set`; the dedicated `state`,
`type` and `binding` fields are never touched here. -/
def WsSetListenerProperty (l : listener) (id : Nat) (value : List Nat) :
    HRESULT × listener :=
  if l.magic ≠ LISTENER_MAGIC then (.E_INVALIDARG, l)
  else
    let r := prop_set listener_props l.prop id value
    (r.1, { l with prop := r.2 })

/-- A concrete environment in which every external call succeeds: the URL
decodes to host `[108]` port 80, the lookup returns one IPv4 entry, and
socket 3 is created, bound and listening. -/
def envEx : NetEnv :=
  { createHeap := .S_OK
    decodeUrl := (.S_OK, ⟨[108], 80⟩)
    hostAlloc := true
    getAddrInfo := fun _ _ => .ok [⟨AF_INET, ⟨AF_INET, [127, 0, 0, 1]⟩⟩]
    socketCall := fun _ => .ok 3
    bindCall := fun _ => none
    listenCall := fun _ _ => none }

/-- A freshly created listener, as produced by a successful
`WsCreateListener` with no overrides. -/
def listener0 : listener :=
  { magic := LISTENER_MAGIC
    type := .DUPLEX_SESSION
    binding := .TCP
    state := .CREATED
    socket := -1
    prop := prop_init listener_props }

/-- An error returned through `parse_url`'s failure paths is never
`S_OK`. -/
theorem parse_url_error_ne (env : NetEnv) (hr : HRESULT)
    (h : parse_url env = .error hr) : hr ≠ HRESULT.S_OK := by
  intro hk
  subst hk
  unfold parse_url at h
  repeat' split at h
  all_goals simp_all

/-- When `resolve_hostname` produces no address, the error it returns is
never `S_OK`. -/
theorem resolve_hostname_none_ne (env : NetEnv) (host : Option (List Nat))
    (port : Nat) (hr : HRESULT)
    (h : resolve_hostname env host port = (hr, none)) :
    hr ≠ HRESULT.S_OK := by
  intro hk
  subst hk
  unfold resolve_hostname at h
  repeat' split at h
  all_goals simp_all

/-- Case analysis of `open_listener`: success sets the state to `OPEN`,
and every failure path leaves the state as it was and the socket either
untouched or reset to the absent sentinel. -/
theorem open_listener_spec (env : NetEnv) (l : listener) :
    ((open_listener env l).1 = .S_OK → (open_listener env l).2.1.state = .OPEN) ∧
    ((open_listener env l).1 ≠ .S_OK →
      (open_listener env l).2.1.state = l.state ∧
      ((open_listener env l).2.1.socket = l.socket ∨
        (open_listener env l).2.1.socket = -1)) := by
  rcases hp : parse_url env with hr | ⟨host, port⟩
  · simp only [open_listener, hp]
    simp [parse_url_error_ne env hr hp]
  · rcases hres : resolve_hostname env host port with ⟨hr, _ | addr⟩
    · simp only [open_listener, hp, hres]
      simp [resolve_hostname_none_ne env host port hr hres]
    · rcases hs : env.socketCall addr.sa_family with err | fd
      · simp only [open_listener, hp, hres, hs]
        simp
      · rcases hb : env.bindCall fd with _ | err
        · rcases hl : env.listenCall fd 0 with _ | err
          · simp only [open_listener, hp, hres, hs, hb, hl]
            simp
          · simp only [open_listener, hp, hres, hs, hb, hl]
            simp
        · simp only [open_listener, hp, hres, hs, hb]
          simp

/-- C1: for a listener in state `CREATED` (whose socket is the absent
sentinel, as every `CREATED` listener's is), `open_listener` either fully
succeeds and the state becomes `OPEN`, or fails — at the URL-decode,
resolution, socket-creation, bind or listen step — and when the error is
returned the socket is the absent sentinel and the state is still
`CREATED`, exactly as before the call. -/
theorem open_listener_atomic (env : NetEnv) (l : listener)
    (h1 : l.state = .CREATED) (h2 : l.socket = -1) :
    ((open_listener env l).1 = .S_OK → (open_listener env l).2.1.state = .OPEN) ∧
    ((open_listener env l).1 ≠ .S_OK →
      (open_listener env l).2.1.state = .CREATED ∧
      (open_listener env l).2.1.socket = -1) := by
  obtain ⟨hsucc, hfail⟩ := open_listener_spec env l
  refine ⟨hsucc, fun hk => ⟨h1 ▸ (hfail hk).1, ?_⟩⟩
  rcases (hfail hk).2 with hc | hc
  · rw [hc, h2]
  · exact hc

/-- Witness for C1: the all-succeeding environment opens a freshly
created listener and the state becomes `OPEN`. -/
theorem open_listener_atomic_w :
    listener0.state = .CREATED ∧ listener0.socket = -1 ∧
    (open_listener envEx listener0).1 = .S_OK ∧
    (open_listener envEx listener0).2.1.state = .OPEN :=
  ⟨rfl, rfl, by decide,
    (open_listener_atomic envEx listener0 rfl rfl).1 (by decide)⟩

/-- C2: on a live listener, `WsOpenListener` started from any state other
than `CREATED` fails with `WS_E_INVALID_OPERATION` and changes nothing,
and whenever it returns `S_OK` the resulting state is `OPEN`. -/
theorem WsOpenListener_state_machine (env : NetEnv) (l : listener)
    (h : l.magic = LISTENER_MAGIC) :
    (l.state ≠ .CREATED →
      WsOpenListener env l false = (.WS_E_INVALID_OPERATION, l)) ∧
    ((WsOpenListener env l false).1 = .S_OK →
      (WsOpenListener env l false).2.state = .OPEN) := by
  constructor
  · intro hs
    simp [WsOpenListener, h, hs]
  · intro hok
    by_cases hs : l.state = .CREATED
    · simp only [WsOpenListener, h, hs] at hok ⊢
      simp at hok ⊢
      exact (open_listener_spec env l).1 hok
    · simp [WsOpenListener, h, hs] at hok

/-- Witness for C2: an already-open listener is rejected with
`WS_E_INVALID_OPERATION`. -/
theorem WsOpenListener_state_machine_w :
    WsOpenListener envEx { listener0 with state := .OPEN } false =
      (.WS_E_INVALID_OPERATION, { listener0 with state := .OPEN }) :=
  (WsOpenListener_state_machine envEx { listener0 with state := .OPEN } rfl).1
    (by decide)

/-- C3: on a live listener in any state, `WsCloseListener` returns `S_OK`,
resets the socket to the absent sentinel, sets the state to `CLOSED`, and
calling it again on the closed listener succeeds and leaves it `CLOSED`
(close is idempotent and never fails). -/
theorem WsCloseListener_idempotent (l : listener) (h : l.magic = LISTENER_MAGIC) :
    WsCloseListener l = (.S_OK, close_listener l) ∧
    (close_listener l).state = .CLOSED ∧
    (close_listener l).socket = -1 ∧
    WsCloseListener (close_listener l) = (.S_OK, close_listener l) := by
  refine ⟨by simp [WsCloseListener, h], rfl, rfl, ?_⟩
  have hm : (close_listener l).magic = LISTENER_MAGIC := h
  simp [WsCloseListener, hm]
  rfl

/-- Witness for C3: closing a freshly created listener. -/
theorem WsCloseListener_idempotent_w :
    WsCloseListener listener0 = (.S_OK, close_listener listener0) ∧
    (close_listener listener0).state = .CLOSED ∧
    (close_listener listener0).socket = -1 ∧
    WsCloseListener (close_listener listener0) =
      (.S_OK, close_listener listener0) :=
  WsCloseListener_idempotent listener0 rfl

/-- C4: on a live listener, `WsSetListenerProperty` on any read-only
identifier (the `state`, `channelType` and `channelBinding` identifiers
among them) fails with `E_INVALIDARG` and leaves the listener — stored
property values included — completely unchanged, so any sequence of such
calls leaves it unchanged; moreover no `WsSetListenerProperty` call, on
any identifier whatsoever, ever changes the dedicated `state`, `type` or
`binding` fields. -/
theorem WsSetListenerProperty_readonly (l : listener)
    (h : l.magic = LISTENER_MAGIC) (id : Nat) (d : prop_desc)
    (hd : listener_props[id]? = some d) (hro : d.readonly = true)
    (value : List Nat) :
    WsSetListenerProperty l id value = (.E_INVALIDARG, l) ∧
    ∀ id2 v2,
      (WsSetListenerProperty l id2 v2).2.state = l.state ∧
      (WsSetListenerProperty l id2 v2).2.type = l.type ∧
      (WsSetListenerProperty l id2 v2).2.binding = l.binding := by
  constructor
  · unfold WsSetListenerProperty
    rw [if_neg (by simp [h])]
    simp [prop_set, hd, hro]
  · intro id2 v2
    unfold WsSetListenerProperty
    split
    · exact ⟨rfl, rfl, rfl⟩
    · exact ⟨rfl, rfl, rfl⟩

/-- Witness for C4: setting the read-only state property of a fresh
listener is rejected and changes nothing. -/
theorem WsSetListenerProperty_readonly_w :
    WsSetListenerProperty listener0 WS_LISTENER_PROPERTY_STATE [1, 2, 3, 4] =
      (.E_INVALIDARG, listener0) :=
  (WsSetListenerProperty_readonly listener0 rfl WS_LISTENER_PROPERTY_STATE
    ⟨4, true⟩ (by decide) rfl [1, 2, 3, 4]).1

/-- C5: freeing a live listener invalidates the identity guard; afterwards
open, close, get-property and set-property on the same handle all fail
with `E_INVALIDARG` without touching it, and a second free is a silent
no-op. -/
theorem WsFreeListener_guards (l : listener) (h : l.magic = LISTENER_MAGIC) :
    (WsFreeListener l).magic ≠ LISTENER_MAGIC ∧
    (∀ env, WsOpenListener env (WsFreeListener l) false =
      (.E_INVALIDARG, WsFreeListener l)) ∧
    WsCloseListener (WsFreeListener l) = (.E_INVALIDARG, WsFreeListener l) ∧
    (∀ id b s, WsGetListenerProperty (WsFreeListener l) id b s =
      (.E_INVALIDARG, none)) ∧
    (∀ id v, WsSetListenerProperty (WsFreeListener l) id v =
      (.E_INVALIDARG, WsFreeListener l)) ∧
    WsFreeListener (WsFreeListener l) = WsFreeListener l := by
  have hm : (WsFreeListener l).magic = 0 := by simp [WsFreeListener, h]
  have hne : (WsFreeListener l).magic ≠ LISTENER_MAGIC := by
    rw [hm]; decide
  refine ⟨hne, fun env => ?_, ?_, fun id b s => ?_, fun id v => ?_, ?_⟩
  · unfold WsOpenListener
    rw [if_neg (by simp), if_pos hne]
  · unfold WsCloseListener
    rw [if_pos hne]
  · unfold WsGetListenerProperty
    rw [if_pos hne]
  · unfold WsSetListenerProperty
    rw [if_pos hne]
  · have hfree : ∀ x : listener, x.magic ≠ LISTENER_MAGIC →
        WsFreeListener x = x := by
      intro x hx
      unfold WsFreeListener
      rw [if_pos hx]
    exact hfree _ hne

/-- Witness for C5: freeing a fresh listener, then closing it, is
rejected with `E_INVALIDARG`, and a second free is a no-op. -/
theorem WsFreeListener_guards_w :
    WsCloseListener (WsFreeListener listener0) =
      (.E_INVALIDARG, WsFreeListener listener0) ∧
    WsFreeListener (WsFreeListener listener0) = WsFreeListener listener0 :=
  ⟨(WsFreeListener_guards listener0 rfl).2.2.1,
    (WsFreeListener_guards listener0 rfl).2.2.2.2.2⟩

/-- C10: on a live listener, `WsGetListenerProperty` for the state,
channel-type or channel-binding identifier with a null output buffer
fails with `E_INVALIDARG`, and on every failing call for these
identifiers (null buffer or size mismatch) the output buffer is not
written. -/
theorem WsGetListenerProperty_nullbuf (l : listener)
    (h : l.magic = LISTENER_MAGIC) (id : Nat)
    (hid : id = WS_LISTENER_PROPERTY_STATE ∨
      id = WS_LISTENER_PROPERTY_CHANNEL_TYPE ∨
      id = WS_LISTENER_PROPERTY_CHANNEL_BINDING) :
    (∀ size, WsGetListenerProperty l id false size = (.E_INVALIDARG, none)) ∧
    (∀ b size, (WsGetListenerProperty l id b size).1 ≠ .S_OK →
      (WsGetListenerProperty l id b size).2 = none) := by
  have hmn : ¬ l.magic ≠ LISTENER_MAGIC := by simp [h]
  rcases hid with hid | hid | hid <;> subst hid <;>
  exact ⟨fun size => by
      simp [WsGetListenerProperty, hmn, WS_LISTENER_PROPERTY_STATE,
        WS_LISTENER_PROPERTY_CHANNEL_TYPE, WS_LISTENER_PROPERTY_CHANNEL_BINDING],
    fun b size hne2 => by
      by_cases hc : b = false ∨ size ≠ 4
      · simp [WsGetListenerProperty, hmn, hc, WS_LISTENER_PROPERTY_STATE,
          WS_LISTENER_PROPERTY_CHANNEL_TYPE, WS_LISTENER_PROPERTY_CHANNEL_BINDING]
      · simp [WsGetListenerProperty, hmn, hc, WS_LISTENER_PROPERTY_STATE,
          WS_LISTENER_PROPERTY_CHANNEL_TYPE,
          WS_LISTENER_PROPERTY_CHANNEL_BINDING] at hne2⟩

/-- Witness for C10: reading the state of a fresh listener into a null
buffer of the right size is rejected without writing anything. -/
theorem WsGetListenerProperty_nullbuf_w :
    WsGetListenerProperty listener0 WS_LISTENER_PROPERTY_STATE false 4 =
      (.E_INVALIDARG, none) :=
  (WsGetListenerProperty_nullbuf listener0 rfl WS_LISTENER_PROPERTY_STATE
    (Or.inl rfl)).1 4

/-- An address-list entry is usable when its family is IPv4 or IPv6. -/
def is_inet (a : ADDRINFOW) : Prop :=
  a.ai_family = AF_INET ∨ a.ai_family = AF_INET6

/-- The scan returns `none` when no entry has a usable family. -/
theorem find_inet_eq_none (res : List ADDRINFOW) (h : ∀ a ∈ res, ¬ is_inet a) :
    find_inet res = none := by
  induction res with
  | nil => rfl
  | cons a rest ih =>
    simp only [find_inet]
    rw [if_neg (show ¬(a.ai_family = AF_INET ∨ a.ai_family = AF_INET6) from
      h a (List.mem_cons_self a rest))]
    exact ih fun b hb => h b (List.mem_cons_of_mem a hb)

/-- The scan returns the first entry with a usable family, skipping every
earlier entry of any other family. -/
theorem find_inet_first (l1 : List ADDRINFOW) (info : ADDRINFOW)
    (l2 : List ADDRINFOW) (hskip : ∀ a ∈ l1, ¬ is_inet a) (hin : is_inet info) :
    find_inet (l1 ++ info :: l2) = some info := by
  induction l1 with
  | nil =>
    simp only [List.nil_append, find_inet]
    rw [if_pos (show info.ai_family = AF_INET ∨ info.ai_family = AF_INET6 from hin)]
  | cons a rest ih =>
    simp only [List.cons_append, find_inet]
    rw [if_neg (show ¬(a.ai_family = AF_INET ∨ a.ai_family = AF_INET6) from
      hskip a (List.mem_cons_self a rest))]
    exact ih fun b hb => hskip b (List.mem_cons_of_mem a hb)

/-- C6: for any non-wildcard host, `resolve_hostname` translates a failed
lookup from the subsystem's error code, fails with
`WS_E_ADDRESS_NOT_AVAILABLE` when no returned candidate has an IPv4 or
IPv6 family, and otherwise selects, in returned order, the first
candidate whose family is IPv4 or IPv6, skipping entries of any other
family. -/
theorem resolve_hostname_first_inet (env : NetEnv) (host : List Nat) (port : Nat) :
    (∀ e, env.getAddrInfo (some host) port = .error e →
      resolve_hostname env (some host) port = (.fromWin32 e, none)) ∧
    (∀ res, env.getAddrInfo (some host) port = .ok res →
      ((∀ a ∈ res, ¬ is_inet a) →
        resolve_hostname env (some host) port =
          (.WS_E_ADDRESS_NOT_AVAILABLE, none)) ∧
      (∀ l1 info l2, res = l1 ++ info :: l2 → (∀ a ∈ l1, ¬ is_inet a) →
        is_inet info →
        resolve_hostname env (some host) port = (.S_OK, some info.ai_addr))) := by
  refine ⟨fun e he => ?_, fun res hres => ⟨fun hnone => ?_, ?_⟩⟩
  · unfold resolve_hostname
    simp only [he]
  · unfold resolve_hostname
    simp only [hres, find_inet_eq_none res hnone]
  · intro l1 info l2 heq hskip hin
    unfold resolve_hostname
    simp only [hres, heq, find_inet_first l1 info l2 hskip hin]

/-- Witness for C6: the all-succeeding environment resolves host `[108]`
to its single IPv4 candidate. -/
theorem resolve_hostname_first_inet_w :
    resolve_hostname envEx (some [108]) 80 =
      (.S_OK, some ⟨AF_INET, [127, 0, 0, 1]⟩) :=
  ((resolve_hostname_first_inet envEx [108] 80).2
      [⟨AF_INET, ⟨AF_INET, [127, 0, 0, 1]⟩⟩] rfl).2
    [] ⟨AF_INET, ⟨AF_INET, [127, 0, 0, 1]⟩⟩ [] rfl
    (fun a ha => absurd ha (List.not_mem_nil a)) (Or.inl rfl)

/-- `apply_props` over a concatenation runs the first block and, only if
it fully succeeds, continues with the second. -/
theorem apply_props_append (s : List (List Nat))
    (ps1 ps2 : List WS_LISTENER_PROPERTY) :
    apply_props s (ps1 ++ ps2) =
      (apply_props s ps1).bind fun s1 => apply_props s1 ps2 := by
  induction ps1 generalizing s with
  | nil => rfl
  | cons p rest ih =>
    simp only [List.cons_append, apply_props]
    split
    · exact ih _
    · rfl

/-- C7: construction applies the caller-supplied overrides strictly in
the order given; whenever every override before `p` succeeds and `p`
itself fails, the whole construction fails with `p`'s error and produces
no listener (the partially built object is released, not returned). -/
theorem create_listener_first_failure (t : WS_CHANNEL_TYPE)
    (b : WS_CHANNEL_BINDING) (ps1 : List WS_LISTENER_PROPERTY)
    (p : WS_LISTENER_PROPERTY) (ps2 : List WS_LISTENER_PROPERTY)
    (s1 : List (List Nat))
    (hok : apply_props (prop_init listener_props) ps1 = .ok s1)
    (hr : HRESULT)
    (hfail : (prop_set listener_props s1 p.id p.value).1 = hr)
    (hne : hr ≠ .S_OK) :
    create_listener true t b (ps1 ++ p :: ps2) = .error hr := by
  have happ : apply_props s1 (p :: ps2) = .error hr := by
    simp only [apply_props]
    rw [hfail, if_neg hne]
  unfold create_listener
  rw [if_neg (by simp)]
  rw [apply_props_append, hok]
  simp only [Except.bind, happ]

/-- Witness for C7: one override of the read-only state property makes
construction fail with `E_INVALIDARG` and no listener. -/
theorem create_listener_first_failure_w :
    create_listener true .DUPLEX_SESSION .TCP
      ([] ++ ⟨WS_LISTENER_PROPERTY_STATE, [0, 0, 0, 0]⟩ :: []) =
      .error .E_INVALIDARG :=
  create_listener_first_failure .DUPLEX_SESSION .TCP []
    ⟨WS_LISTENER_PROPERTY_STATE, [0, 0, 0, 0]⟩ [] (prop_init listener_props)
    rfl .E_INVALIDARG (by decide) (by decide)

/-- C8: `WsCreateListener` fails with `E_NOTIMPL` and produces no handle
for every channel-type/channel-binding combination other than a duplex
session channel over the TCP binding, and that one accepted combination
does produce a handle. -/
theorem WsCreateListener_combination (allocOk : Bool) (t : WS_CHANNEL_TYPE)
    (b : WS_CHANNEL_BINDING) (properties : List WS_LISTENER_PROPERTY)
    (h : t ≠ .DUPLEX_SESSION ∨ b ≠ .TCP) :
    WsCreateListener allocOk t b properties false = (.E_NOTIMPL, none) ∧
    WsCreateListener true .DUPLEX_SESSION .TCP [] false =
      (.S_OK, some listener0) := by
  constructor
  · rcases h with ht | hb
    · simp [WsCreateListener, ht]
    · by_cases ht : t = .DUPLEX_SESSION
      · simp [WsCreateListener, ht, hb]
      · simp [WsCreateListener, ht]
  · decide

/-- Witness for C8: a request channel over TCP is rejected with
`E_NOTIMPL`. -/
theorem WsCreateListener_combination_w :
    WsCreateListener true .REQUEST .TCP [] false = (.E_NOTIMPL, none) :=
  (WsCreateListener_combination true .REQUEST .TCP []
    (Or.inl (by decide))).1

/-- The order in which a fully successful `open_listener` performs its
steps: URL decode, winsock bootstrap, resolution, socket creation of the
given family, bind, listen with backlog 0. -/
def openOrder (family : Nat) : List OpenStep :=
  [.decodeUrlStep, .winsockInitStep, .resolveStep, .socketStep family,
   .bindStep, .listenStep 0]

/-- Counterexample to C9: in a concrete fully succeeding run the first
step `open_listener` performs is the URL decode, not the one-time winsock
bootstrap — the code calls `parse_url` before `winsock_init`, so the
claimed bootstrap-first order is false. -/
theorem open_listener_bootstrap_not_first :
    (open_listener envEx listener0).2.2 = openOrder AF_INET ∧
    (open_listener envEx listener0).2.2.head? = some OpenStep.decodeUrlStep ∧
    ¬ (open_listener envEx listener0).2.2.head? =
        some OpenStep.winsockInitStep := by
  decide

/-- C9 (amended): on entry `open_listener` first decodes the target URL
via the external URL collaborator, then runs the one-time process network
bootstrap, then resolves the address, then creates a socket of the
resolved address family, then binds, then begins listening with backlog
0 — every successful call performs exactly these steps in exactly this
order. -/
theorem open_listener_step_order (env : NetEnv) (l : listener)
    (h : (open_listener env l).1 = .S_OK) :
    ∃ family, (open_listener env l).2.2 = openOrder family := by
  rcases hp : parse_url env with hr | ⟨host, port⟩
  · simp only [open_listener, hp] at h
    exact absurd h (parse_url_error_ne env hr hp)
  · rcases hres : resolve_hostname env host port with ⟨hr, _ | addr⟩
    · simp only [open_listener, hp, hres] at h
      exact absurd h (resolve_hostname_none_ne env host port hr hres)
    · rcases hs : env.socketCall addr.sa_family with err | fd
      · simp only [open_listener, hp, hres, hs] at h
        exact absurd h (by simp)
      · rcases hb : env.bindCall fd with _ | err
        · rcases hl : env.listenCall fd 0 with _ | err
          · exact ⟨addr.sa_family,
              by simp only [open_listener, hp, hres, hs, hb, hl, openOrder]⟩
          · simp only [open_listener, hp, hres, hs, hb, hl] at h
            exact absurd h (by simp)
        · simp only [open_listener, hp, hres, hs, hb] at h
          exact absurd h (by simp)

/-- Witness for the amended C9: the all-succeeding run opens with the
full step order for the IPv4 family. -/
theorem open_listener_step_order_w :
    (open_listener envEx listener0).1 = .S_OK ∧
    ∃ family, (open_listener envEx listener0).2.2 = openOrder family :=
  ⟨by decide, open_listener_step_order envEx listener0 (by decide)⟩

end Webservices
